import Mathlib

/-!
Verification of the GitHub CI/CD bot orchestration in
`sqlmesh/integrations/github/cicd/command.py`.

The controller (`GithubController`) is an external collaborator: we model it as a
pure oracle record whose fields fix, for one run, the answers of every controller
operation the orchestration consumes.  Each gate runner and the `_run_all`
orchestrator is embedded as a pure function that returns the list of externally
visible events (the `update_*_check` calls and the best-effort follow-ups) together
with its boolean result, and `_run_all` additionally returns the run verdict
(`Except.error` models a raised `CICDBotError`, `Except.ok` a normal return).
-/

namespace SqlmeshCicd

/-- `GithubCheckStatus`: the check-run status values used by `command.py`. -/
inductive GithubCheckStatus
  | queued
  | in_progress
  | completed
  deriving DecidableEq

/-- `GithubCheckConclusion`: the check-run conclusion values used by `command.py`. -/
inductive GithubCheckConclusion
  | success
  | neutral
  | failure
  | skipped
  | action_required
  deriving DecidableEq

/-- Modelled from the spec: `is_success` is true only for SUCCESS
(the `GithubCheckConclusion` property lives in the controller module, outside the
illustrated source). -/
def GithubCheckConclusion.is_success : GithubCheckConclusion → Bool
  | .success => true
  | _ => false

/-- Modelled from the spec: `is_failure` is true only for FAILURE. -/
def GithubCheckConclusion.is_failure : GithubCheckConclusion → Bool
  | .failure => true
  | _ => false

/-- Modelled from the spec: `is_action_required` is true only for ACTION_REQUIRED. -/
def GithubCheckConclusion.is_action_required : GithubCheckConclusion → Bool
  | .action_required => true
  | _ => false

/-- Result of `controller.get_command_from_comment()`: the three recognized
classification outcomes (`is_invalid`, `is_deploy_prod`, anything else is the
unsupported case whose text feeds the raised error message). -/
inductive BotCommand
  | invalid
  | deploy_prod
  | unsupported (text : String)
  deriving DecidableEq

/-- Exceptions a controller operation may raise, as far as `command.py`
distinguishes them: `TestFailure` (the marker passed to the PR-environment check
when unit tests fail), `ConflictingPlanError` and `PlanError` (caught separately in
`_deploy_production`), and any other exception. -/
inductive Exc
  | testFailure
  | conflictingPlanError (text : String)
  | planError
  | other (text : String)
  deriving DecidableEq

/-- `str(e)` for a modelled exception. -/
def Exc.text : Exc → String
  | .testFailure => "TestFailure"
  | .conflictingPlanError t => t
  | .planError => "PlanError"
  | .other t => t

/-- Pure oracle for the `GithubController` collaborator: one field per controller
operation / property the orchestration in `command.py` consumes, fixing its outcome
for the run.  `run_tests` returns (`result.wasSuccessful()`, output) or raises;
`pr_env_conclusion_ok` / `pr_env_conclusion_exc` are the conclusions the controller
computes inside `update_pr_environment_check(status=COMPLETED, ...)` on the normal
and exception paths. -/
structure GithubController where
  deploy_command_enabled : Bool
  do_required_approval_check : Bool
  is_comment_added : Bool
  get_command_from_comment : BotCommand
  has_required_approval : Bool
  run_tests : Except Exc (Bool × String)
  update_pr_environment : Except Exc Unit
  pr_env_conclusion_ok : Option GithubCheckConclusion
  pr_env_conclusion_exc : Exc → Option GithubCheckConclusion
  get_plan_summary : Except Exc String
  deploy_to_prod : Except Exc Unit
  try_merge_pr_ok : Bool
  try_invalidate_pr_environment_ok : Bool

/-- Modelled from the spec: the conclusion `update_pr_environment_check` reports when
completed (the computation lives in the controller module, outside the illustrated
source).  On the normal path the controller picks its own conclusion from the
underlying result; on an exception it derives the conclusion from the exception
itself, and the distinguished upstream-test-failure marker maps to FAILURE
("Complete PREnvironment as COMPLETED/FAILURE with a distinguished upstream test
failure payload"). -/
def pr_env_check_conclusion (c : GithubController) : Option Exc → Option GithubCheckConclusion
  | none => c.pr_env_conclusion_ok
  | some .testFailure => some .failure
  | some e => c.pr_env_conclusion_exc e

/-- The five gates of the run. -/
inductive GateId
  | tests
  | required_approval
  | pr_environment
  | prod_plan_preview
  | prod_environment
  deriving DecidableEq

/-- Externally visible events of a run: every `update_*_check` call (gate, status,
conclusion reported, payload text) plus the best-effort `try_merge_pr` /
`try_invalidate_pr_environment` calls (recording whether the controller internally
succeeded). -/
inductive Event
  | check (gate : GateId) (status : GithubCheckStatus)
      (conclusion : Option GithubCheckConclusion) (payload : Option String)
  | merge_pr (ok : Bool)
  | invalidate_pr_environment (ok : Bool)
  deriving DecidableEq

/-- The gate an event reports on, if any. -/
def Event.gateOf : Event → Option GateId
  | .check g _ _ _ => some g
  | _ => none

/-- Is this event a COMPLETED update of gate `g`? -/
def Event.is_completion_of (g : GateId) : Event → Bool
  | .check g2 s _ _ => decide (g2 = g) && decide (s = GithubCheckStatus.completed)
  | _ => false

/-- All events of a trace reporting on gate `g`. -/
def eventsOf (g : GateId) (tr : List Event) : List Event :=
  tr.filter (fun e => decide (Event.gateOf e = some g))

/-- All COMPLETED updates of gate `g` in a trace. -/
def completionsOf (g : GateId) (tr : List Event) : List Event :=
  tr.filter (Event.is_completion_of g)

/-- Embedding of `_check_required_approvers` (command.py lines 38-48). -/
def _check_required_approvers (c : GithubController) : List Event × Bool :=
  (Event.check .required_approval .in_progress none none ::
    (if c.has_required_approval then
      [Event.check .required_approval .completed (some .success) none]
    else
      [Event.check .required_approval .completed (some .neutral) none]),
   c.has_required_approval)

/-- Embedding of `_run_tests` (command.py lines 62-80). -/
def _run_tests (c : GithubController) : List Event × Bool :=
  match c.run_tests with
  | .ok r =>
      ([Event.check .tests .in_progress none none,
        Event.check .tests .completed (some .neutral) (some r.2)], r.1)
  | .error e =>
      ([Event.check .tests .in_progress none none,
        Event.check .tests .completed (some .failure) (some (Exc.text e))], false)

/-- Embedding of `_update_pr_environment` (command.py lines 92-106). -/
def _update_pr_environment (c : GithubController) : List Event × Bool :=
  match c.update_pr_environment with
  | .ok _ =>
      ([Event.check .pr_environment .in_progress none none,
        Event.check .pr_environment .completed (pr_env_check_conclusion c none) none],
       match pr_env_check_conclusion c none with
       | some cc => cc.is_success
       | none => false)
  | .error e =>
      ([Event.check .pr_environment .in_progress none none,
        Event.check .pr_environment .completed (pr_env_check_conclusion c (some e))
          (some (Exc.text e))],
       match pr_env_check_conclusion c (some e) with
       | some cc => !cc.is_failure && !cc.is_action_required
       | none => false)

/-- Embedding of `_gen_prod_plan` (command.py lines 120-136); the boolean is the
Python truthiness of the plan summary string. -/
def _gen_prod_plan (c : GithubController) : List Event × Bool :=
  match c.get_plan_summary with
  | .ok plan_summary =>
      ([Event.check .prod_plan_preview .in_progress none none,
        Event.check .prod_plan_preview .completed (some .success) (some plan_summary)],
       !plan_summary.isEmpty)
  | .error e =>
      ([Event.check .prod_plan_preview .in_progress none none,
        Event.check .prod_plan_preview .completed (some .failure) (some (Exc.text e))],
       false)

/-- Embedding of `_deploy_production` (command.py lines 152-178).
`try_merge_pr` / `try_invalidate_pr_environment` are modelled from the spec as
best-effort, non-raising operations ("failures not surfaced to the gate
conclusion"); their internal outcome is recorded in the trace but raises nothing. -/
def _deploy_production (c : GithubController) : List Event × Bool :=
  match c.deploy_to_prod with
  | .ok _ =>
      ([Event.check .prod_environment .in_progress none none,
        Event.check .prod_environment .completed (some .success) none,
        Event.merge_pr c.try_merge_pr_ok,
        Event.invalidate_pr_environment c.try_invalidate_pr_environment_ok], true)
  | .error (.conflictingPlanError t) =>
      ([Event.check .prod_environment .in_progress none none,
        Event.check .prod_environment .completed (some .skipped)
          (some (Exc.text (.conflictingPlanError t)))], false)
  | .error .planError =>
      ([Event.check .prod_environment .in_progress none none,
        Event.check .prod_environment .completed (some .action_required) none], false)
  | .error _ =>
      ([Event.check .prod_environment .in_progress none none,
        Event.check .prod_environment .completed (some .failure) none], false)

/-- `is_auto_deploying_prod` of `_run_all` (command.py lines 192-194). -/
def is_auto_deploying_prod (c : GithubController) : Bool :=
  c.deploy_command_enabled || c.do_required_approval_check

/-- The queue phase of `_run_all` (command.py lines 207-211). -/
def queue_events (c : GithubController) : List Event :=
  [Event.check .pr_environment .queued none none,
   Event.check .prod_plan_preview .queued none none,
   Event.check .tests .queued none none] ++
  (if is_auto_deploying_prod c then [Event.check .prod_environment .queued none none]
   else [])

/-- The required-approval block of `_run_all` (command.py lines 213-220); takes and
returns the `has_required_approval` local. -/
def approval_phase (c : GithubController) (has_required_approval : Bool) :
    List Event × Bool :=
  if c.do_required_approval_check then
    if has_required_approval then
      ([Event.check .required_approval .completed (some .skipped) none],
       has_required_approval)
    else
      (Event.check .required_approval .queued none none :: (_check_required_approvers c).1,
       (_check_required_approvers c).2)
  else ([], has_required_approval)

/-- The tests-failed cascade of `_run_all` (command.py lines 221-236): the
PR-environment check is completed with a `TestFailure` exception (conclusion computed
by the controller), the prod-plan check is completed SKIPPED and, when the prod
check was queued, it is completed SKIPPED too. -/
def tests_failed_events (c : GithubController) : List Event :=
  [Event.check .pr_environment .completed (pr_env_check_conclusion c (some .testFailure))
     (some (Exc.text .testFailure)),
   Event.check .prod_plan_preview .completed (some .skipped)
     (some "Unit Test(s) Failed so skipping creating prod plan")] ++
  (if is_auto_deploying_prod c then
    [Event.check .prod_environment .completed (some .skipped)
       (some "Unit Test(s) Failed so skipping deploying to production")]
   else [])

/-- The prod-plan block of `_run_all` (command.py lines 239-245). -/
def plan_phase (c : GithubController) (pr_environment_updated : Bool) :
    List Event × Bool :=
  if pr_environment_updated then _gen_prod_plan c
  else ([Event.check .prod_plan_preview .completed (some .skipped) none], false)

/-- The skip-reason selection chain of `_run_all` (command.py lines 250-263). -/
def deploy_skip_reason (has_required_approval pr_environment_updated
    prod_plan_generated : Bool) : String :=
  if !has_required_approval then
    "Skipped Deploying to Production because a required approver has not approved"
  else if !pr_environment_updated then
    "Skipped Deploying to Production because the PR environment was not updated"
  else if !prod_plan_generated then
    "Skipped Deploying to Production because the production plan could not be generated"
  else
    "Skipped Deploying to Production for an unknown reason"

/-- The deployment decision of `_run_all` (command.py lines 246-268). -/
def deploy_phase (c : GithubController) (has_required_approval pr_environment_updated
    prod_plan_generated : Bool) : List Event × Bool :=
  if has_required_approval && prod_plan_generated then _deploy_production c
  else if is_auto_deploying_prod c then
    ([Event.check .prod_environment .completed (some .skipped)
        (some (deploy_skip_reason has_required_approval pr_environment_updated
          prod_plan_generated))], false)
  else ([], false)

/-- The final verdict of `_run_all` (command.py lines 269-276). -/
def run_all_verdict (pr_environment_updated prod_plan_generated has_required_approval
    deployed_to_prod : Bool) : Except String Unit :=
  if !pr_environment_updated || !prod_plan_generated ||
      (has_required_approval && !deployed_to_prod) then
    Except.error "A step of the run-all check failed. See check status for more information."
  else Except.ok ()

/-- `_run_all` after trigger gating (command.py lines 207-276), parameterised by the
`has_required_approval` value the trigger gating established. -/
def _run_all_main (c : GithubController) (has_required_approval0 : Bool) :
    List Event × Except String Unit :=
  let tests_passed := (_run_tests c).2
  let has_required_approval := (approval_phase c has_required_approval0).2
  let head := queue_events c ++ (_run_tests c).1 ++ (approval_phase c has_required_approval0).1
  if !tests_passed then
    (head ++ tests_failed_events c,
     Except.error "Failed to run tests. See check status for more information.")
  else
    let pr_environment_updated := (_update_pr_environment c).2
    let prod_plan_generated := (plan_phase c pr_environment_updated).2
    let deployed_to_prod :=
      (deploy_phase c has_required_approval pr_environment_updated prod_plan_generated).2
    (head ++ (_update_pr_environment c).1 ++ (plan_phase c pr_environment_updated).1 ++
       (deploy_phase c has_required_approval pr_environment_updated prod_plan_generated).1,
     run_all_verdict pr_environment_updated prod_plan_generated has_required_approval
       deployed_to_prod)

/-- Embedding of `_run_all` (command.py lines 190-276): trigger gating followed by
the main orchestration.  An `Except.error` models a raised `CICDBotError`. -/
def _run_all (c : GithubController) : List Event × Except String Unit :=
  if c.is_comment_added then
    if !c.deploy_command_enabled then ([], Except.ok ())
    else
      match c.get_command_from_comment with
      | .invalid => ([], Except.ok ())
      | .deploy_prod => _run_all_main c true
      | .unsupported text => ([], Except.error ("Unsupported command: " ++ text))
  else _run_all_main c false

/-- `tests_passed` local of `_run_all`. -/
def tests_passed (c : GithubController) : Bool := (_run_tests c).2

/-- `pr_environment_updated` local of `_run_all`. -/
def pr_environment_updated (c : GithubController) : Bool := (_update_pr_environment c).2

/-- `has_required_approval` local of `_run_all` after the approval block. -/
def final_has_required_approval (c : GithubController) (has_required_approval0 : Bool) :
    Bool :=
  (approval_phase c has_required_approval0).2

/-- `prod_plan_generated` local of `_run_all`. -/
def prod_plan_generated (c : GithubController) : Bool :=
  (plan_phase c (pr_environment_updated c)).2

/-- `deployed_to_prod` local of `_run_all`. -/
def deployed_to_prod (c : GithubController) (has_required_approval0 : Bool) : Bool :=
  (deploy_phase c (final_has_required_approval c has_required_approval0)
    (pr_environment_updated c) (prod_plan_generated c)).2

/-! ### Trace bookkeeping lemmas -/

theorem completionsOf_append (g : GateId) (a b : List Event) :
    completionsOf g (a ++ b) = completionsOf g a ++ completionsOf g b :=
  List.filter_append _ _

theorem eventsOf_append (g : GateId) (a b : List Event) :
    eventsOf g (a ++ b) = eventsOf g a ++ eventsOf g b :=
  List.filter_append _ _

theorem completionsOf_queue_events (g : GateId) (c : GithubController) :
    completionsOf g (queue_events c) = [] := by
  unfold completionsOf queue_events
  rcases h : is_auto_deploying_prod c <;>
    simp [h, Event.is_completion_of]

theorem completionsOf_run_tests (g : GateId) (c : GithubController)
    (h : g ≠ GateId.tests) :
    completionsOf g (_run_tests c).1 = [] := by
  unfold completionsOf _run_tests
  rcases c.run_tests with r | e <;>
    simp [Event.is_completion_of, decide_eq_false (Ne.symm h)]

theorem completions_run_tests_length (c : GithubController) :
    (completionsOf .tests (_run_tests c).1).length = 1 := by
  unfold completionsOf _run_tests
  rcases c.run_tests with r | e <;>
    simp [Event.is_completion_of]

theorem completionsOf_approval_phase (g : GateId) (c : GithubController) (h0 : Bool)
    (h : g ≠ GateId.required_approval) :
    completionsOf g (approval_phase c h0).1 = [] := by
  unfold completionsOf approval_phase _check_required_approvers
  rcases c.do_required_approval_check <;> rcases h0 <;>
    rcases c.has_required_approval <;>
      simp [Event.is_completion_of, decide_eq_false (Ne.symm h)]

theorem completions_approval_phase_length (c : GithubController) (h0 : Bool) :
    (completionsOf .required_approval (approval_phase c h0).1).length ≤ 1 := by
  unfold completionsOf approval_phase _check_required_approvers
  rcases c.do_required_approval_check <;> rcases h0 <;>
    rcases c.has_required_approval <;>
      simp [Event.is_completion_of]

theorem completionsOf_tests_failed_pr (c : GithubController) :
    completionsOf .pr_environment (tests_failed_events c) =
      [Event.check .pr_environment .completed (some .failure) (some "TestFailure")] := by
  unfold completionsOf tests_failed_events
  rcases h : is_auto_deploying_prod c <;>
    simp [h, Event.is_completion_of, pr_env_check_conclusion, Exc.text]

theorem completionsOf_tests_failed_plan (c : GithubController) :
    completionsOf .prod_plan_preview (tests_failed_events c) =
      [Event.check .prod_plan_preview .completed (some .skipped)
        (some "Unit Test(s) Failed so skipping creating prod plan")] := by
  unfold completionsOf tests_failed_events
  rcases h : is_auto_deploying_prod c <;>
    simp [h, Event.is_completion_of]

theorem completionsOf_tests_failed_prod (c : GithubController) :
    completionsOf .prod_environment (tests_failed_events c) =
      if is_auto_deploying_prod c then
        [Event.check .prod_environment .completed (some .skipped)
          (some "Unit Test(s) Failed so skipping deploying to production")]
      else [] := by
  unfold completionsOf tests_failed_events
  rcases h : is_auto_deploying_prod c <;>
    simp [h, Event.is_completion_of]

theorem completionsOf_tests_failed_tests (c : GithubController) :
    completionsOf .tests (tests_failed_events c) = [] := by
  unfold completionsOf tests_failed_events
  rcases h : is_auto_deploying_prod c <;>
    simp [h, Event.is_completion_of]

theorem completionsOf_tests_failed_approval (c : GithubController) :
    completionsOf .required_approval (tests_failed_events c) = [] := by
  unfold completionsOf tests_failed_events
  rcases h : is_auto_deploying_prod c <;>
    simp [h, Event.is_completion_of]

theorem completionsOf_update_pr (g : GateId) (c : GithubController)
    (h : g ≠ GateId.pr_environment) :
    completionsOf g (_update_pr_environment c).1 = [] := by
  unfold completionsOf _update_pr_environment
  rcases c.update_pr_environment with u | e <;>
    simp [Event.is_completion_of, decide_eq_false (Ne.symm h)]

theorem completions_update_pr_length (c : GithubController) :
    (completionsOf .pr_environment (_update_pr_environment c).1).length = 1 := by
  unfold completionsOf _update_pr_environment
  rcases c.update_pr_environment with u | e <;>
    simp [Event.is_completion_of]

theorem completionsOf_plan_phase (g : GateId) (c : GithubController) (b : Bool)
    (h : g ≠ GateId.prod_plan_preview) :
    completionsOf g (plan_phase c b).1 = [] := by
  unfold completionsOf plan_phase _gen_prod_plan
  rcases b <;> [skip; rcases c.get_plan_summary with s | e] <;>
    simp [Event.is_completion_of, decide_eq_false (Ne.symm h)]

theorem completions_plan_phase_length (c : GithubController) (b : Bool) :
    (completionsOf .prod_plan_preview (plan_phase c b).1).length = 1 := by
  unfold completionsOf plan_phase _gen_prod_plan
  rcases b <;> [skip; rcases c.get_plan_summary with s | e] <;>
    simp [Event.is_completion_of]

theorem completionsOf_deploy_phase (g : GateId) (c : GithubController)
    (a b d : Bool) (h : g ≠ GateId.prod_environment) :
    completionsOf g (deploy_phase c a b d).1 = [] := by
  unfold completionsOf deploy_phase _deploy_production
  rcases a <;> rcases d <;> rcases hauto : is_auto_deploying_prod c <;>
    rcases hd : c.deploy_to_prod with e | u <;> (try rcases e with _ | t | _ | t) <;>
      simp [hd, hauto, Event.is_completion_of, decide_eq_false (Ne.symm h)]

theorem completions_deploy_phase_length (c : GithubController) (a b d : Bool) :
    (completionsOf .prod_environment (deploy_phase c a b d).1).length ≤ 1 := by
  unfold completionsOf deploy_phase _deploy_production
  rcases a <;> rcases d <;> rcases hauto : is_auto_deploying_prod c <;>
    rcases hd : c.deploy_to_prod with e | u <;> (try rcases e with _ | t | _ | t) <;>
      simp [hd, hauto, Event.is_completion_of]

theorem completionsOf_deploy_phase_skip (c : GithubController) (a b d : Bool)
    (hne : (a && d) = false) (hauto : is_auto_deploying_prod c = true) :
    completionsOf .prod_environment (deploy_phase c a b d).1 =
      [Event.check .prod_environment .completed (some .skipped)
        (some (deploy_skip_reason a b d))] := by
  unfold completionsOf deploy_phase
  simp [hne, hauto, Event.is_completion_of]

theorem completionsOf_deploy_phase_success (c : GithubController) (a b d : Bool)
    (hrun : (a && d) = true) (hok : c.deploy_to_prod = Except.ok ()) :
    completionsOf .prod_environment (deploy_phase c a b d).1 =
      [Event.check .prod_environment .completed (some .success) none] := by
  unfold completionsOf deploy_phase _deploy_production
  simp [hrun, hok, Event.is_completion_of]

theorem eventsOf_queue_events_approval (c : GithubController) :
    eventsOf .required_approval (queue_events c) = [] := by
  unfold eventsOf queue_events
  rcases h : is_auto_deploying_prod c <;>
    simp [h, Event.gateOf]

theorem eventsOf_run_tests_approval (c : GithubController) :
    eventsOf .required_approval (_run_tests c).1 = [] := by
  unfold eventsOf _run_tests
  rcases c.run_tests with r | e <;> simp [Event.gateOf]

theorem eventsOf_tests_failed_approval (c : GithubController) :
    eventsOf .required_approval (tests_failed_events c) = [] := by
  unfold eventsOf tests_failed_events
  rcases h : is_auto_deploying_prod c <;>
    simp [h, Event.gateOf]

theorem eventsOf_update_pr_approval (c : GithubController) :
    eventsOf .required_approval (_update_pr_environment c).1 = [] := by
  unfold eventsOf _update_pr_environment
  rcases c.update_pr_environment with u | e <;> simp [Event.gateOf]

theorem eventsOf_plan_phase_approval (c : GithubController) (b : Bool) :
    eventsOf .required_approval (plan_phase c b).1 = [] := by
  unfold eventsOf plan_phase _gen_prod_plan
  rcases b <;> [skip; rcases c.get_plan_summary with s | e] <;>
    simp [Event.gateOf]

theorem eventsOf_deploy_phase_approval (c : GithubController) (a b d : Bool) :
    eventsOf .required_approval (deploy_phase c a b d).1 = [] := by
  unfold eventsOf deploy_phase _deploy_production
  rcases a <;> rcases d <;> rcases hauto : is_auto_deploying_prod c <;>
    rcases hd : c.deploy_to_prod with e | u <;> (try rcases e with _ | t | _ | t) <;>
      simp [hd, hauto, Event.gateOf]

theorem eventsOf_approval_phase (c : GithubController) (h0 : Bool) :
    eventsOf .required_approval (approval_phase c h0).1 = (approval_phase c h0).1 := by
  unfold eventsOf approval_phase _check_required_approvers
  rcases c.do_required_approval_check <;> rcases h0 <;>
    rcases c.has_required_approval <;> simp [Event.gateOf]

/-! ### Shape of the `_run_all` main phase -/

theorem run_all_main_fst (c : GithubController) (h0 : Bool) :
    (_run_all_main c h0).1 =
      if tests_passed c then
        queue_events c ++ (_run_tests c).1 ++ (approval_phase c h0).1 ++
          (_update_pr_environment c).1 ++ (plan_phase c (pr_environment_updated c)).1 ++
          (deploy_phase c (final_has_required_approval c h0) (pr_environment_updated c)
            (prod_plan_generated c)).1
      else
        queue_events c ++ (_run_tests c).1 ++ (approval_phase c h0).1 ++
          tests_failed_events c := by
  unfold _run_all_main
  rcases h : tests_passed c <;>
    · unfold tests_passed at h
      simp [h, pr_environment_updated, prod_plan_generated,
        final_has_required_approval]

theorem run_all_main_snd (c : GithubController) (h0 : Bool) :
    (_run_all_main c h0).2 =
      if tests_passed c then
        run_all_verdict (pr_environment_updated c) (prod_plan_generated c)
          (final_has_required_approval c h0) (deployed_to_prod c h0)
      else
        Except.error "Failed to run tests. See check status for more information." := by
  unfold _run_all_main
  rcases h : tests_passed c <;>
    · unfold tests_passed at h
      simp [h, pr_environment_updated, prod_plan_generated,
        final_has_required_approval, deployed_to_prod]

/-! ### Concrete controllers used to instantiate theorems -/

/-- A fully green controller: not comment-triggered, approval check enabled, tests
pass, required approval present, environment update succeeds with SUCCESS, non-empty
plan summary, deployment succeeds. -/
def happy_controller : GithubController :=
  ⟨true, true, false, BotCommand.invalid, true,
   Except.ok (true, "all tests passed"), Except.ok (), some .success,
   fun _ => none, Except.ok "plan summary", Except.ok (), true, true⟩

/-- A controller whose unit tests fail (approval check enabled, approval absent,
not comment-triggered); everything else would succeed. -/
def tests_fail_controller : GithubController :=
  ⟨false, true, false, BotCommand.invalid, false,
   Except.ok (false, "1 test failed"), Except.ok (), some .success,
   fun _ => none, Except.ok "plan summary", Except.ok (), true, true⟩

/-- A controller whose PR-environment update succeeds but whose controller-side
check update reports NEUTRAL rather than SUCCESS. -/
def neutral_env_controller : GithubController :=
  ⟨true, true, false, BotCommand.invalid, true,
   Except.ok (true, "all tests passed"), Except.ok (), some .neutral,
   fun _ => none, Except.ok "plan summary", Except.ok (), true, true⟩

/-! ### C1 -/

/-- C1: for every run of the orchestration that passes trigger gating (i.e. reaches
the main phase, with any pre-established approval flag) and whose tests gate boolean
is true, the run raises the final bot error iff the PR environment was not updated,
or the production plan was not generated, or required approval was held but the
deployment did not succeed; otherwise it returns normally (overall success). -/
theorem run_all_overall_verdict (c : GithubController) (h0 : Bool)
    (htests : tests_passed c = true) :
    ((_run_all_main c h0).2 =
        Except.error "A step of the run-all check failed. See check status for more information."
      ↔ (pr_environment_updated c = false ∨ prod_plan_generated c = false ∨
          (final_has_required_approval c h0 = true ∧ deployed_to_prod c h0 = false))) ∧
    ((_run_all_main c h0).2 = Except.ok ()
      ↔ ¬(pr_environment_updated c = false ∨ prod_plan_generated c = false ∨
          (final_has_required_approval c h0 = true ∧ deployed_to_prod c h0 = false))) := by
  rw [run_all_main_snd]
  rcases h1 : pr_environment_updated c <;> rcases h2 : prod_plan_generated c <;>
    rcases h3 : final_has_required_approval c h0 <;> rcases h4 : deployed_to_prod c h0 <;>
      simp [htests, run_all_verdict, h1, h2, h3, h4]

/-- Witness for C1 at the fully green controller: tests pass and the run returns
normally. -/
theorem run_all_overall_verdict_witness :
    tests_passed happy_controller = true ∧
    (_run_all_main happy_controller false).2 = Except.ok () :=
  ⟨by decide,
   ((run_all_overall_verdict happy_controller false (by decide)).2).mpr (by decide)⟩

/-! ### C2 -/

/-- C2: when the tests boolean is false, the orchestrator completes PREnvironment as
FAILURE with the upstream-test-failure payload, completes ProdPlanPreview as SKIPPED,
completes ProdDeployment as SKIPPED when it was queued (`is_auto_deploying_prod`),
and terminates the run with overall failure. -/
theorem tests_failed_cascade (c : GithubController) (h0 : Bool)
    (htests : tests_passed c = false) :
    completionsOf .pr_environment (_run_all_main c h0).1 =
      [Event.check .pr_environment .completed (some .failure) (some "TestFailure")] ∧
    completionsOf .prod_plan_preview (_run_all_main c h0).1 =
      [Event.check .prod_plan_preview .completed (some .skipped)
        (some "Unit Test(s) Failed so skipping creating prod plan")] ∧
    (is_auto_deploying_prod c = true →
      completionsOf .prod_environment (_run_all_main c h0).1 =
        [Event.check .prod_environment .completed (some .skipped)
          (some "Unit Test(s) Failed so skipping deploying to production")]) ∧
    (_run_all_main c h0).2 =
      Except.error "Failed to run tests. See check status for more information." := by
  have htr := run_all_main_fst c h0
  rw [htests] at htr
  simp only [Bool.false_eq_true, if_false] at htr
  refine ⟨?_, ?_, ?_, ?_⟩
  · rw [htr, completionsOf_append, completionsOf_append, completionsOf_append,
      completionsOf_queue_events, completionsOf_run_tests _ _ (by decide),
      completionsOf_approval_phase _ _ _ (by decide), completionsOf_tests_failed_pr]
    simp
  · rw [htr, completionsOf_append, completionsOf_append, completionsOf_append,
      completionsOf_queue_events, completionsOf_run_tests _ _ (by decide),
      completionsOf_approval_phase _ _ _ (by decide), completionsOf_tests_failed_plan]
    simp
  · intro hauto
    rw [htr, completionsOf_append, completionsOf_append, completionsOf_append,
      completionsOf_queue_events, completionsOf_run_tests _ _ (by decide),
      completionsOf_approval_phase _ _ _ (by decide), completionsOf_tests_failed_prod,
      hauto]
    simp
  · rw [run_all_main_snd, htests]
    simp

/-- Witness for C2 at the failing-tests controller. -/
theorem tests_failed_cascade_witness :
    tests_passed tests_fail_controller = false ∧
    is_auto_deploying_prod tests_fail_controller = true ∧
    completionsOf .prod_environment (_run_all_main tests_fail_controller false).1 =
      [Event.check .prod_environment .completed (some .skipped)
        (some "Unit Test(s) Failed so skipping deploying to production")] :=
  ⟨by decide, by decide,
   (tests_failed_cascade tests_fail_controller false (by decide)).2.2.1 (by decide)⟩

/-! ### C3 -/

/-- C3 as stated is false on the code: with failing tests, the approval check
enabled, and no pre-granted approval, the RequiredApproval check IS evaluated (the
gate goes IN_PROGRESS and is completed from the controller answer) before the run
terminates — the approval block (command.py lines 213-220) executes before the
tests-gate termination (lines 221-237), not after it. -/
theorem approval_evaluated_despite_failed_tests_cex :
    tests_passed tests_fail_controller = false ∧
    tests_fail_controller.do_required_approval_check = true ∧
    tests_fail_controller.is_comment_added = false ∧
    Event.check .required_approval .in_progress none none
      ∈ (_run_all tests_fail_controller).1 ∧
    Event.check .required_approval .completed (some .neutral) none
      ∈ (_run_all tests_fail_controller).1 := by
  decide

/-- C3 amended: when the tests boolean is false, the approval block still runs
before the tests-gate termination.  If approval was pre-granted via the deploy
command, the RequiredApproval gate is completed SKIPPED and the controller approval
check is not invoked (no QUEUED/IN_PROGRESS transition); if it was not pre-granted
and the approval check is enabled, the check IS evaluated (queued, run, completed
from the controller answer) before the run terminates with overall failure; if the
approval check is disabled the gate is untouched. -/
theorem approval_block_on_failed_tests (c : GithubController) (h0 : Bool)
    (htests : tests_passed c = false) :
    (c.do_required_approval_check = true → h0 = true →
      eventsOf .required_approval (_run_all_main c h0).1 =
        [Event.check .required_approval .completed (some .skipped) none]) ∧
    (c.do_required_approval_check = true → h0 = false →
      eventsOf .required_approval (_run_all_main c h0).1 =
        [Event.check .required_approval .queued none none,
         Event.check .required_approval .in_progress none none,
         Event.check .required_approval .completed
           (some (if c.has_required_approval then GithubCheckConclusion.success
                  else GithubCheckConclusion.neutral)) none]) ∧
    (c.do_required_approval_check = false →
      eventsOf .required_approval (_run_all_main c h0).1 = []) ∧
    (_run_all_main c h0).2 =
      Except.error "Failed to run tests. See check status for more information." := by
  have htr := run_all_main_fst c h0
  rw [htests] at htr
  simp only [Bool.false_eq_true, if_false] at htr
  have hev : eventsOf .required_approval (_run_all_main c h0).1 =
      eventsOf .required_approval (approval_phase c h0).1 := by
    rw [htr, eventsOf_append, eventsOf_append, eventsOf_append,
      eventsOf_queue_events_approval, eventsOf_run_tests_approval,
      eventsOf_tests_failed_approval, eventsOf_approval_phase]
    simp [eventsOf_approval_phase]
  refine ⟨?_, ?_, ?_, ?_⟩
  · intro hd hh0
    rw [hev, eventsOf_approval_phase]
    unfold approval_phase
    simp [hd, hh0]
  · intro hd hh0
    rw [hev, eventsOf_approval_phase]
    unfold approval_phase _check_required_approvers
    rcases hr : c.has_required_approval <;> simp [hd, hh0, hr]
  · intro hd
    rw [hev, eventsOf_approval_phase]
    unfold approval_phase
    simp [hd]
  · rw [run_all_main_snd, htests]
    simp

/-- Witness for the amended C3 at the failing-tests controller (approval not
pre-granted, check enabled). -/
theorem approval_block_on_failed_tests_witness :
    eventsOf .required_approval (_run_all_main tests_fail_controller false).1 =
      [Event.check .required_approval .queued none none,
       Event.check .required_approval .in_progress none none,
       Event.check .required_approval .completed (some .neutral) none] := by
  have h := (approval_block_on_failed_tests tests_fail_controller false
    (by decide)).2.1 (by decide) (by decide)
  simpa using h

/-! ### C4 -/

/-- C4 as stated is false on the code: on the normal (no-exception) path the runner
returns `conclusion is not None and conclusion.is_success` (command.py line 97), so a
NEUTRAL conclusion — which is neither FAILURE nor ACTION_REQUIRED and should count as
"updated" per the claim — makes the runner return false. -/
theorem pr_environment_neutral_cex :
    neutral_env_controller.update_pr_environment = Except.ok () ∧
    completionsOf .pr_environment (_update_pr_environment neutral_env_controller).1 =
      [Event.check .pr_environment .completed (some .neutral) none] ∧
    GithubCheckConclusion.neutral.is_failure = false ∧
    GithubCheckConclusion.neutral.is_action_required = false ∧
    (_update_pr_environment neutral_env_controller).2 = false :=
  ⟨rfl, by decide, by decide, by decide, by decide⟩

/-- C4 amended: the PREnvironment runner records exactly one terminal conclusion for
the gate; its boolean result is — on the normal path — that this conclusion is
present and is SUCCESS, and — on the exception path — that this conclusion is
present and is neither FAILURE nor ACTION_REQUIRED. -/
theorem pr_environment_runner_boolean (c : GithubController) :
    ∃ cc p, completionsOf .pr_environment (_update_pr_environment c).1 =
        [Event.check .pr_environment .completed cc p] ∧
      (_update_pr_environment c).2 =
        (match c.update_pr_environment, cc with
         | .ok _, some k => k.is_success
         | .error _, some k => !k.is_failure && !k.is_action_required
         | _, none => false) := by
  unfold completionsOf _update_pr_environment
  rcases hu : c.update_pr_environment with e | u
  · refine ⟨pr_env_check_conclusion c (some e), some (Exc.text e), ?_, ?_⟩
    · simp [hu, Event.is_completion_of]
    · rcases hcc : pr_env_check_conclusion c (some e) with _ | k <;> simp [hu, hcc]
  · refine ⟨pr_env_check_conclusion c none, none, ?_, ?_⟩
    · simp [hu, Event.is_completion_of]
    · rcases hcc : pr_env_check_conclusion c none with _ | k <;> simp [hu, hcc]

/-! ### C5 and C10 share the computation of the recorded skip completion -/

/-- A controller where tests pass but the required approver has not approved
(approval check enabled, not comment-triggered); everything else would succeed. -/
def no_approval_controller : GithubController :=
  ⟨false, true, false, BotCommand.invalid, false,
   Except.ok (true, "all tests passed"), Except.ok (), some .success,
   fun _ => none, Except.ok "plan summary", Except.ok (), true, true⟩

theorem run_all_main_skip_completions (c : GithubController) (h0 : Bool)
    (htests : tests_passed c = true) (hauto : is_auto_deploying_prod c = true)
    (hnorun : (final_has_required_approval c h0 && prod_plan_generated c) = false) :
    completionsOf .prod_environment (_run_all_main c h0).1 =
      [Event.check .prod_environment .completed (some .skipped)
        (some (deploy_skip_reason (final_has_required_approval c h0)
          (pr_environment_updated c) (prod_plan_generated c)))] := by
  have htr := run_all_main_fst c h0
  rw [htests, if_pos rfl] at htr
  rw [htr, completionsOf_append, completionsOf_append, completionsOf_append,
    completionsOf_append, completionsOf_append, completionsOf_queue_events,
    completionsOf_run_tests _ _ (by decide), completionsOf_approval_phase _ _ _ (by decide),
    completionsOf_update_pr _ _ (by decide), completionsOf_plan_phase _ _ _ (by decide),
    completionsOf_deploy_phase_skip _ _ _ _ hnorun hauto]
  simp

/-- C5: whenever ProdDeployment was queued but the deployment does not run, the
single recorded ProdDeployment completion is SKIPPED with the priority-selected
reason; the priority is strict: not approved beats everything (in particular,
whenever approval is absent the reason is the "no required approval" one regardless
of the other flags), then environment-not-updated, then plan-not-generated. -/
theorem deploy_skip_reason_priority (c : GithubController) (h0 : Bool)
    (htests : tests_passed c = true)
    (hauto : is_auto_deploying_prod c = true)
    (hnorun : (final_has_required_approval c h0 && prod_plan_generated c) = false) :
    completionsOf .prod_environment (_run_all_main c h0).1 =
      [Event.check .prod_environment .completed (some .skipped)
        (some (deploy_skip_reason (final_has_required_approval c h0)
          (pr_environment_updated c) (prod_plan_generated c)))] ∧
    (final_has_required_approval c h0 = false →
      deploy_skip_reason (final_has_required_approval c h0) (pr_environment_updated c)
          (prod_plan_generated c) =
        "Skipped Deploying to Production because a required approver has not approved") ∧
    (final_has_required_approval c h0 = true → pr_environment_updated c = false →
      deploy_skip_reason (final_has_required_approval c h0) (pr_environment_updated c)
          (prod_plan_generated c) =
        "Skipped Deploying to Production because the PR environment was not updated") ∧
    (final_has_required_approval c h0 = true → pr_environment_updated c = true →
      prod_plan_generated c = false →
      deploy_skip_reason (final_has_required_approval c h0) (pr_environment_updated c)
          (prod_plan_generated c) =
        "Skipped Deploying to Production because the production plan could not be generated") := by
  refine ⟨run_all_main_skip_completions c h0 htests hauto hnorun, ?_, ?_, ?_⟩
  · intro ha
    simp [deploy_skip_reason, ha]
  · intro ha hb
    simp [deploy_skip_reason, ha, hb]
  · intro ha hb hc2
    simp [deploy_skip_reason, ha, hb, hc2]

/-- Witness for C5: approval absent (with environment updated and plan generated),
so the recorded reason is the "no required approval" one. -/
theorem deploy_skip_reason_priority_witness :
    completionsOf .prod_environment (_run_all_main no_approval_controller false).1 =
      [Event.check .prod_environment .completed (some .skipped)
        (some "Skipped Deploying to Production because a required approver has not approved")] := by
  have h := deploy_skip_reason_priority no_approval_controller false
    (by decide) (by decide) (by decide)
  have h2 := h.2.1 (by decide)
  have h1 := h.1
  rw [h2] at h1
  exact h1

/-! ### C6 -/

theorem completions_run_all_main_le_one (c : GithubController) (h0 : Bool) (g : GateId) :
    (completionsOf g (_run_all_main c h0).1).length ≤ 1 := by
  have htr := run_all_main_fst c h0
  rcases ht : tests_passed c
  · rw [ht, if_neg (by decide)] at htr
    rw [htr, completionsOf_append, completionsOf_append, completionsOf_append]
    rcases g
    · rw [completionsOf_queue_events, completionsOf_approval_phase _ _ _ (by decide),
        completionsOf_tests_failed_tests]
      simp [completions_run_tests_length]
    · rw [completionsOf_queue_events, completionsOf_run_tests _ _ (by decide),
        completionsOf_tests_failed_approval]
      simpa using completions_approval_phase_length c h0
    · rw [completionsOf_queue_events, completionsOf_run_tests _ _ (by decide),
        completionsOf_approval_phase _ _ _ (by decide), completionsOf_tests_failed_pr]
      simp
    · rw [completionsOf_queue_events, completionsOf_run_tests _ _ (by decide),
        completionsOf_approval_phase _ _ _ (by decide), completionsOf_tests_failed_plan]
      simp
    · rw [completionsOf_queue_events, completionsOf_run_tests _ _ (by decide),
        completionsOf_approval_phase _ _ _ (by decide), completionsOf_tests_failed_prod]
      rcases is_auto_deploying_prod c <;> simp
  · rw [ht, if_pos rfl] at htr
    rw [htr, completionsOf_append, completionsOf_append, completionsOf_append,
      completionsOf_append, completionsOf_append]
    rcases g
    · rw [completionsOf_queue_events, completionsOf_approval_phase _ _ _ (by decide),
        completionsOf_update_pr _ _ (by decide), completionsOf_plan_phase _ _ _ (by decide),
        completionsOf_deploy_phase _ _ _ _ _ (by decide)]
      simp [completions_run_tests_length]
    · rw [completionsOf_queue_events, completionsOf_run_tests _ _ (by decide),
        completionsOf_update_pr _ _ (by decide), completionsOf_plan_phase _ _ _ (by decide),
        completionsOf_deploy_phase _ _ _ _ _ (by decide)]
      simpa using completions_approval_phase_length c h0
    · rw [completionsOf_queue_events, completionsOf_run_tests _ _ (by decide),
        completionsOf_approval_phase _ _ _ (by decide),
        completionsOf_plan_phase _ _ _ (by decide),
        completionsOf_deploy_phase _ _ _ _ _ (by decide)]
      simp [completions_update_pr_length]
    · rw [completionsOf_queue_events, completionsOf_run_tests _ _ (by decide),
        completionsOf_approval_phase _ _ _ (by decide), completionsOf_update_pr _ _ (by decide),
        completionsOf_deploy_phase _ _ _ _ _ (by decide)]
      simp [completions_plan_phase_length]
    · rw [completionsOf_queue_events, completionsOf_run_tests _ _ (by decide),
        completionsOf_approval_phase _ _ _ (by decide), completionsOf_update_pr _ _ (by decide),
        completionsOf_plan_phase _ _ _ (by decide)]
      simpa using completions_deploy_phase_length c _ _ _

/-- C6: every gate is completed at most once in any run of `_run_all` (so a gate
conclusion, once recorded, is immutable for the rest of the run), and when the
deployment operation succeeds the single recorded ProdDeployment conclusion is
SUCCESS — the best-effort merge / teardown follow-ups (modelled from the spec as
non-raising, failures swallowed by the controller) cannot change it, whatever their
internal outcome (`try_merge_pr_ok` / `try_invalidate_pr_environment_ok` are
arbitrary). -/
theorem gate_conclusion_immutable (c : GithubController) (h0 : Bool) :
    (∀ g : GateId, (completionsOf g (_run_all c).1).length ≤ 1) ∧
    (tests_passed c = true →
      (final_has_required_approval c h0 && prod_plan_generated c) = true →
      c.deploy_to_prod = Except.ok () →
      completionsOf .prod_environment (_run_all_main c h0).1 =
        [Event.check .prod_environment .completed (some .success) none]) := by
  constructor
  · intro g
    rcases hic : c.is_comment_added
    · simpa [_run_all, hic] using completions_run_all_main_le_one c false g
    · rcases hde : c.deploy_command_enabled
      · simp [_run_all, hic, hde, completionsOf]
      · rcases hcmd : c.get_command_from_comment
        · simp [_run_all, hic, hde, hcmd, completionsOf]
        · simpa [_run_all, hic, hde, hcmd] using completions_run_all_main_le_one c true g
        · simp [_run_all, hic, hde, hcmd, completionsOf]
  · intro htests hrun hok
    have htr := run_all_main_fst c h0
    rw [htests, if_pos rfl] at htr
    rw [htr, completionsOf_append, completionsOf_append, completionsOf_append,
      completionsOf_append, completionsOf_append, completionsOf_queue_events,
      completionsOf_run_tests _ _ (by decide), completionsOf_approval_phase _ _ _ (by decide),
      completionsOf_update_pr _ _ (by decide), completionsOf_plan_phase _ _ _ (by decide),
      completionsOf_deploy_phase_success _ _ _ _ hrun hok]
    simp

/-- Witness for C6 at the fully green controller: the deployment succeeds and the
recorded ProdDeployment completion is SUCCESS. -/
theorem gate_conclusion_immutable_witness :
    completionsOf .prod_environment (_run_all_main happy_controller false).1 =
      [Event.check .prod_environment .completed (some .success) none] :=
  (gate_conclusion_immutable happy_controller false).2 (by decide) (by decide) rfl

/-! ### C7 -/

/-- A controller whose deployment raises `ConflictingPlanError`. -/
def conflict_controller : GithubController :=
  ⟨true, true, false, BotCommand.invalid, true,
   Except.ok (true, "all tests passed"), Except.ok (), some .success,
   fun _ => none, Except.ok "plan summary",
   Except.error (Exc.conflictingPlanError "plan conflicts with an ongoing apply"),
   true, true⟩

/-- C7: `_deploy_production` is a total fault boundary (a pure function of the
controller, so no exception can escape it): a `ConflictingPlanError` completes the
gate SKIPPED with the error text as skip reason, a plain `PlanError` completes it
ACTION_REQUIRED, any other exception completes it FAILURE, and in all three cases
the runner returns false. -/
theorem deploy_production_fault_boundary (c : GithubController) :
    (∀ t, c.deploy_to_prod = Except.error (Exc.conflictingPlanError t) →
      completionsOf .prod_environment (_deploy_production c).1 =
        [Event.check .prod_environment .completed (some .skipped) (some t)] ∧
      (_deploy_production c).2 = false) ∧
    (c.deploy_to_prod = Except.error Exc.planError →
      completionsOf .prod_environment (_deploy_production c).1 =
        [Event.check .prod_environment .completed (some .action_required) none] ∧
      (_deploy_production c).2 = false) ∧
    (∀ e, c.deploy_to_prod = Except.error e →
      (∀ t, e ≠ Exc.conflictingPlanError t) → e ≠ Exc.planError →
      completionsOf .prod_environment (_deploy_production c).1 =
        [Event.check .prod_environment .completed (some .failure) none] ∧
      (_deploy_production c).2 = false) := by
  refine ⟨?_, ?_, ?_⟩
  · intro t h
    unfold completionsOf _deploy_production
    simp [h, Event.is_completion_of, Exc.text]
  · intro h
    unfold completionsOf _deploy_production
    simp [h, Event.is_completion_of]
  · intro e h hnc hnp
    unfold completionsOf _deploy_production
    rcases e with _ | t | _ | t
    · simp [h, Event.is_completion_of]
    · exact absurd rfl (hnc t)
    · exact absurd rfl hnp
    · simp [h, Event.is_completion_of]

/-- Witness for C7 at the conflicting-plan controller. -/
theorem deploy_production_fault_boundary_witness :
    completionsOf .prod_environment (_deploy_production conflict_controller).1 =
      [Event.check .prod_environment .completed (some .skipped)
        (some "plan conflicts with an ongoing apply")] ∧
    (_deploy_production conflict_controller).2 = false :=
  (deploy_production_fault_boundary conflict_controller).1
    "plan conflicts with an ongoing apply" rfl

/-! ### C8 -/

/-- A comment-triggered controller whose comment classifies as the deploy command. -/
def comment_deploy_controller : GithubController :=
  ⟨true, false, true, BotCommand.deploy_prod, false,
   Except.ok (true, "all tests passed"), Except.ok (), some .success,
   fun _ => none, Except.ok "plan summary", Except.ok (), true, true⟩

/-- C8: comment-triggered runs: with command-driven deployment disabled, or an
Invalid comment, the run terminates immediately with overall success and an empty
trace (no gate ever queued); an Unsupported comment terminates immediately with the
unsupported-command error and an empty trace; a DeployProduction comment continues
into the main orchestration with the approval flag set true. -/
theorem comment_trigger_gating (c : GithubController)
    (hic : c.is_comment_added = true) :
    (c.deploy_command_enabled = false → _run_all c = ([], Except.ok ())) ∧
    (c.deploy_command_enabled = true → c.get_command_from_comment = BotCommand.invalid →
      _run_all c = ([], Except.ok ())) ∧
    (∀ t, c.deploy_command_enabled = true →
      c.get_command_from_comment = BotCommand.unsupported t →
      _run_all c = ([], Except.error ("Unsupported command: " ++ t))) ∧
    (c.deploy_command_enabled = true → c.get_command_from_comment = BotCommand.deploy_prod →
      _run_all c = _run_all_main c true) := by
  refine ⟨?_, ?_, ?_, ?_⟩
  · intro hde
    simp [_run_all, hic, hde]
  · intro hde hcmd
    simp [_run_all, hic, hde, hcmd]
  · intro t hde hcmd
    simp [_run_all, hic, hde, hcmd]
  · intro hde hcmd
    simp [_run_all, hic, hde, hcmd]

/-- Witness for C8: a deploy-production comment continues into the main phase with
the approval flag pre-granted. -/
theorem comment_trigger_gating_witness :
    _run_all comment_deploy_controller = _run_all_main comment_deploy_controller true :=
  (comment_trigger_gating comment_deploy_controller rfl).2.2.2 rfl rfl

/-! ### C9 -/

/-- C9: with the required-approval check enabled: if approval was already granted
before the gate (the main phase starts with the flag true, as happens exactly for
the deploy comment command), the RequiredApproval gate is completed immediately as
SKIPPED and the controller approval check is never invoked (the gate sees no
QUEUED / IN_PROGRESS transition); only when the flag starts false is the gate
queued, run, and its boolean (the controller's `has_required_approval` answer)
assigned to the orchestrator's approval flag. -/
theorem required_approval_gate_behavior (c : GithubController) (h0 : Bool)
    (hd : c.do_required_approval_check = true) :
    (h0 = true →
      eventsOf .required_approval (_run_all_main c h0).1 =
        [Event.check .required_approval .completed (some .skipped) none] ∧
      final_has_required_approval c h0 = true) ∧
    (h0 = false →
      eventsOf .required_approval (_run_all_main c h0).1 =
        [Event.check .required_approval .queued none none,
         Event.check .required_approval .in_progress none none,
         Event.check .required_approval .completed
           (some (if c.has_required_approval then GithubCheckConclusion.success
                  else GithubCheckConclusion.neutral)) none] ∧
      final_has_required_approval c h0 = c.has_required_approval) := by
  have hev : eventsOf .required_approval (_run_all_main c h0).1 =
      eventsOf .required_approval (approval_phase c h0).1 := by
    have htr := run_all_main_fst c h0
    rcases ht : tests_passed c
    · rw [ht, if_neg (by decide)] at htr
      rw [htr, eventsOf_append, eventsOf_append, eventsOf_append,
        eventsOf_queue_events_approval, eventsOf_run_tests_approval,
        eventsOf_tests_failed_approval]
      simp
    · rw [ht, if_pos rfl] at htr
      rw [htr, eventsOf_append, eventsOf_append, eventsOf_append, eventsOf_append,
        eventsOf_append, eventsOf_queue_events_approval, eventsOf_run_tests_approval,
        eventsOf_update_pr_approval, eventsOf_plan_phase_approval,
        eventsOf_deploy_phase_approval]
      simp
  constructor
  · intro hh0
    rw [hev, eventsOf_approval_phase]
    unfold approval_phase final_has_required_approval
    constructor
    · simp [hd, hh0]
    · unfold approval_phase
      simp [hd, hh0]
  · intro hh0
    rw [hev, eventsOf_approval_phase]
    unfold approval_phase _check_required_approvers final_has_required_approval
    constructor
    · rcases hr : c.has_required_approval <;> simp [hd, hh0, hr]
    · unfold approval_phase _check_required_approvers
      simp [hd, hh0]

/-- Witness for C9: approval not pre-granted at the fully green controller, so the
gate is queued, run, and completed SUCCESS, and the flag takes the controller
answer. -/
theorem required_approval_gate_behavior_witness :
    eventsOf .required_approval (_run_all_main happy_controller false).1 =
      [Event.check .required_approval .queued none none,
       Event.check .required_approval .in_progress none none,
       Event.check .required_approval .completed (some .success) none] ∧
    final_has_required_approval happy_controller false = true := by
  have h := (required_approval_gate_behavior happy_controller false rfl).2 rfl
  refine ⟨?_, ?_⟩
  · rw [h.1]
    decide
  · rw [h.2]
    decide

/-! ### C10 -/

/-- C10: the fourth, lowest-priority "unknown reason" branch of the deployment
decision is unreachable: whenever ProdDeployment was queued but the deployment does
not run, at least one of "not approved" / "environment not updated" / "plan not
generated" holds, the skip-reason chain never selects the unknown reason, and no
ProdDeployment completion carrying the unknown reason ever appears in the trace. -/
theorem unknown_skip_reason_unreachable (c : GithubController) (h0 : Bool)
    (htests : tests_passed c = true)
    (hauto : is_auto_deploying_prod c = true)
    (hnorun : (final_has_required_approval c h0 && prod_plan_generated c) = false) :
    (final_has_required_approval c h0 = false ∨ pr_environment_updated c = false ∨
      prod_plan_generated c = false) ∧
    deploy_skip_reason (final_has_required_approval c h0) (pr_environment_updated c)
        (prod_plan_generated c) ≠
      "Skipped Deploying to Production for an unknown reason" ∧
    Event.check .prod_environment .completed (some .skipped)
        (some "Skipped Deploying to Production for an unknown reason")
      ∉ (_run_all_main c h0).1 := by
  have hne : deploy_skip_reason (final_has_required_approval c h0)
      (pr_environment_updated c) (prod_plan_generated c) ≠
      "Skipped Deploying to Production for an unknown reason" := by
    rcases ha : final_has_required_approval c h0 <;>
      rcases hb : pr_environment_updated c <;>
        rcases hc2 : prod_plan_generated c <;>
          rw [ha, hc2] at hnorun <;>
            first
            | exact absurd hnorun (by decide)
            | simp [deploy_skip_reason, ha, hb, hc2]
  have hdisj : final_has_required_approval c h0 = false ∨
      pr_environment_updated c = false ∨ prod_plan_generated c = false := by
    rcases ha : final_has_required_approval c h0
    · exact Or.inl rfl
    · rcases hc2 : prod_plan_generated c
      · exact Or.inr (Or.inr rfl)
      · rw [ha, hc2] at hnorun
        exact absurd hnorun (by decide)
  refine ⟨hdisj, hne, ?_⟩
  intro hmem
  have hin : Event.check .prod_environment .completed (some .skipped)
      (some "Skipped Deploying to Production for an unknown reason")
      ∈ completionsOf .prod_environment (_run_all_main c h0).1 :=
    List.mem_filter.mpr ⟨hmem, by decide⟩
  rw [run_all_main_skip_completions c h0 htests hauto hnorun] at hin
  simp at hin
  exact hne hin.symm

/-- Witness for C10 at the no-approval controller. -/
theorem unknown_skip_reason_unreachable_witness :
    Event.check .prod_environment .completed (some .skipped)
        (some "Skipped Deploying to Production for an unknown reason")
      ∉ (_run_all_main no_approval_controller false).1 :=
  (unknown_skip_reason_unreachable no_approval_controller false
    (by decide) (by decide) (by decide)).2.2

end SqlmeshCicd
